import Mathlib

/-
Verification of the batch image resizer (src/img.py).

The file shallowly embeds the program's dimension-resolution policy, the
encoding-mode selection, the output-filename rule, and the per-file batch
loop of `resize_images`, together with the input-folder guard of `main`.

Modelling conventions:
* Python optional integer arguments (`width`, `height`, `scale_percent`)
  become `Option Nat`; a Python truthiness test `if x:` becomes `truthy`,
  which is false both for `None` and for `0`.
* Python computes `int(a * b / 100)` with float division followed by
  truncation toward zero; for the nonnegative integers involved here this
  is modelled as exact arithmetic, i.e. Nat floor division `a * b / 100`.
  Likewise `int(original_height * (width / original_width))` is modelled
  exactly as `original_height * width / original_width`.
* I/O performed by the loop (directory creation, file writes, printed
  lines) is recorded as an explicit list of `Effect`s, and the outcome of
  opening/decoding/saving each file is supplied by the environment as an
  `Except String ImgInfo` per filename (the whole per-file body sits in a
  single try/except, so only success-with-image-data versus
  raised-with-message is observable to the counters).
-/

/-- Python truthiness of an optional integer argument (`if scale_percent:`
etc., src/img.py lines 44-57): true iff provided and nonzero. -/
def truthy : Option Nat → Bool
  | none => false
  | some n => n != 0

/-- Lines 44-61 of src/img.py: dimension resolution.  Branches in source
order: scale_percent, then width and height, then width only, then height
only, then no-op. -/
def computeNewDims (original_width original_height : Nat)
    (width height scale_percent : Option Nat) : Nat × Nat :=
  if truthy scale_percent then
    (original_width * scale_percent.getD 0 / 100,
     original_height * scale_percent.getD 0 / 100)
  else if truthy width && truthy height then
    (width.getD 0, height.getD 0)
  else if truthy width then
    (width.getD 0, original_height * width.getD 0 / original_width)
  else if truthy height then
    (original_width * height.getD 0 / original_height, height.getD 0)
  else
    (original_width, original_height)

/-- ASCII-wise model of Python `str.lower()`. -/
def strLower (s : String) : String := String.mk (s.data.map Char.toLower)

/-- Model of Python `str.endswith(suffix)`. -/
def strEndsWith (s suffix : String) : Bool := suffix.data.isSuffixOf s.data

/-- Line 25: the tuple `supported_formats`. -/
def supported_formats : List String :=
  [".jpg", ".jpeg", ".png", ".bmp", ".gif", ".tiff", ".webp"]

/-- Line 34: `filename.lower().endswith(supported_formats)` (a tuple
argument to `endswith` matches when any element is a suffix). -/
def isSupportedFile (filename : String) : Bool :=
  supported_formats.any (fun ext => strEndsWith (strLower filename) ext)

/-- Index of the last '.' in a character list, if any (Python `rfind`). -/
def rfindDot : List Char → Option Nat
  | [] => none
  | c :: cs =>
    match rfindDot cs with
    | some i => some (i + 1)
    | none => if c = '.' then some 0 else none

/-- Model of Python `os.path.splitext` on a bare filename (no path
separator): split at the last '.', except that a name consisting of the
extension dot preceded only by dots has no extension. -/
def splitext (s : String) : String × String :=
  match rfindDot s.data with
  | none => (s, "")
  | some i =>
    if (s.data.take i).all (fun c => c = '.') then (s, "")
    else (String.mk (s.data.take i), String.mk (s.data.drop i))

/-- Lines 67-70: output filename is the stem plus `.{format}` when a
format override is given, else the input filename unchanged. -/
def outputFilename (format : Option String) (filename : String) : String :=
  match format with
  | some f => (splitext filename).1 ++ "." ++ f
  | none => filename

/-- The three save branches of lines 75-85: JPEG with quality, WEBP with
quality, or the library's native encoder for the extension. -/
inductive SaveMode where
  | jpeg
  | webp
  | native
deriving DecidableEq, Repr

/-- Lines 75-85: which save branch runs.  The JPEG branch is taken when
the requested format is jpg/jpeg OR the input filename ends in
.jpg/.jpeg — the extension test is not conditioned on the format being
absent; likewise for the WEBP branch. -/
def saveMode (format : Option String) (filename : String) : SaveMode :=
  if (format == some "jpg" || format == some "jpeg")
      || (strEndsWith (strLower filename) ".jpg"
          || strEndsWith (strLower filename) ".jpeg") then
    SaveMode.jpeg
  else if format == some "webp" || strEndsWith (strLower filename) ".webp" then
    SaveMode.webp
  else
    SaveMode.native

/-- Lines 77-80: inside the JPEG branch an image whose mode is RGBA, LA
or P is pasted onto an opaque white RGB background first. -/
def jpegConvertsToRGB (mode : String) : Bool :=
  mode = "RGBA" || mode = "LA" || mode = "P"

/-- The optional CLI arguments passed to `resize_images` (lines 5-6). -/
structure ResizeArgs where
  width : Option Nat
  height : Option Nat
  scale_percent : Option Nat
  format : Option String
  quality : Nat

/-- What decoding a file yields: its pixel dimensions (`img.size`) and
its pixel mode (`img.mode`, e.g. "RGB", "RGBA", "P"). -/
structure ImgInfo where
  width : Nat
  height : Nat
  mode : String
deriving DecidableEq, Repr

/-- Observable side effects of the program: directory creation, a file
written, a line printed. -/
inductive Effect where
  | makedirs (path : String)
  | writeFile (path : String)
  | printLine (line : String)
deriving DecidableEq, Repr

/-- An effect that touches the file system (as opposed to printing). -/
def isFileOp : Effect → Bool
  | Effect.makedirs _ => true
  | Effect.writeFile _ => true
  | Effect.printLine _ => false

/-- Lines 44-88 applied to one successfully opened file: the output path,
the resolved dimensions, and the save branch used. -/
def processOk (args : ResizeArgs) (output_folder filename : String)
    (info : ImgInfo) : String × (Nat × Nat) × SaveMode :=
  let dims := computeNewDims info.width info.height
      args.width args.height args.scale_percent
  (output_folder ++ "/" ++ outputFilename args.format filename,
   dims, saveMode args.format filename)

/-- Effects of the success path for one file: the saved output file and
the per-file progress line (lines 81-88). -/
def okEffects (args : ResizeArgs) (output_folder filename : String)
    (info : ImgInfo) : List Effect :=
  let r := processOk args output_folder filename info
  [Effect.writeFile r.1,
   Effect.printLine ("Processed: " ++ filename ++ " ("
     ++ toString info.width ++ "x" ++ toString info.height ++ " -> "
     ++ toString r.2.1.1 ++ "x" ++ toString r.2.1.2 ++ ")")]

/-- Line 92: the log line of the except branch for one file. -/
def failEffect (filename e : String) : Effect :=
  Effect.printLine ("Failed to process " ++ filename ++ ": " ++ e)

/-- Lines 32-92: the for-loop over the directory listing.  Each entry
carries the environment's outcome for that file: `Except.ok info` when the
whole try-body (open, resize, save) succeeds, `Except.error e` when it
raises with message `e`.  Unsupported extensions are skipped before the
try.  Accumulates the `processed` and `failed` counters. -/
def resizeLoop (args : ResizeArgs) (output_folder : String) :
    List (String × Except String ImgInfo) → Nat → Nat →
      List Effect × Nat × Nat
  | [], processed, failed => ([], processed, failed)
  | (filename, r) :: rest, processed, failed =>
    if isSupportedFile filename then
      match r with
      | Except.ok info =>
        let k := resizeLoop args output_folder rest (processed + 1) failed
        (okEffects args output_folder filename info ++ k.1, k.2)
      | Except.error e =>
        let k := resizeLoop args output_folder rest processed (failed + 1)
        (failEffect filename e :: k.1, k.2)
    else
      resizeLoop args output_folder rest processed failed

/-- Lines 95-100: the summary block printed after the loop. -/
def summaryEffects (output_folder : String) (processed failed : Nat) :
    List Effect :=
  [Effect.printLine ("\n" ++ String.mk (List.replicate 50 '=')),
   Effect.printLine "Processing complete!",
   Effect.printLine ("Successfully processed: " ++ toString processed ++ " images"),
   Effect.printLine ("Failed: " ++ toString failed ++ " images"),
   Effect.printLine ("Output saved to: " ++ output_folder),
   Effect.printLine (String.mk (List.replicate 50 '='))]

/-- Lines 20-100: `resize_images`.  Creates the output folder when it
does not already exist, runs the loop, prints the summary. -/
def resize_images (output_exists : Bool) (args : ResizeArgs)
    (output_folder : String) (files : List (String × Except String ImgInfo)) :
    List Effect × Nat × Nat :=
  let pre := if output_exists then [] else [Effect.makedirs output_folder]
  let r := resizeLoop args output_folder files 0 0
  (pre ++ r.1 ++ summaryEffects output_folder r.2.1 r.2.2, r.2)

/-- Lines 119-133: `main` validates that the input folder exists before
calling `resize_images`; when it does not, it prints an error and
returns. -/
def mainEffects (input_exists output_exists : Bool) (args : ResizeArgs)
    (input_folder output_folder : String)
    (files : List (String × Except String ImgInfo)) : List Effect :=
  if input_exists then
    (resize_images output_exists args output_folder files).1
  else
    [Effect.printLine ("Error: Input folder '" ++ input_folder
      ++ "' does not exist")]

/-- Effects contributed by a single directory entry. -/
def fileEffects (args : ResizeArgs) (output_folder : String) :
    String × Except String ImgInfo → List Effect
  | (filename, Except.ok info) =>
    if isSupportedFile filename then okEffects args output_folder filename info
    else []
  | (filename, Except.error e) =>
    if isSupportedFile filename then [failEffect filename e]
    else []

/-- A supported entry whose processing succeeds. -/
def isOkFile : String × Except String ImgInfo → Bool
  | (filename, Except.ok _) => isSupportedFile filename
  | (_, Except.error _) => false

/-- A supported entry whose processing raises. -/
def isFailFile : String × Except String ImgInfo → Bool
  | (_, Except.ok _) => false
  | (filename, Except.error _) => isSupportedFile filename

/-- Closed form of the loop: effects are the per-entry effects in listing
order, `processed` counts supported successes, `failed` counts supported
failures, each added to the incoming accumulator. -/
theorem resizeLoop_spec (args : ResizeArgs) (out : String) :
    ∀ (files : List (String × Except String ImgInfo)) (p f : Nat),
      resizeLoop args out files p f =
        ((files.map (fileEffects args out)).flatten,
         p + files.countP isOkFile,
         f + files.countP isFailFile)
  | [], p, f => by simp [resizeLoop]
  | (filename, r) :: rest, p, f => by
    cases r with
    | ok info =>
      by_cases hs : isSupportedFile filename
      · simp [resizeLoop, hs, fileEffects, isOkFile, isFailFile,
          resizeLoop_spec args out rest (p + 1) f, List.countP_cons]
        omega
      · simp [resizeLoop, hs, fileEffects, isOkFile, isFailFile,
          resizeLoop_spec args out rest p f, List.countP_cons]
    | error e =>
      by_cases hs : isSupportedFile filename
      · simp [resizeLoop, hs, fileEffects, isOkFile, isFailFile,
          resizeLoop_spec args out rest p (f + 1), List.countP_cons]
        omega
      · simp [resizeLoop, hs, fileEffects, isOkFile, isFailFile,
          resizeLoop_spec args out rest p f, List.countP_cons]

/-- C1: for positive original dimensions and a positive `scale_percent`,
the resolved dimensions are exactly the originals scaled by s percent and
rounded down, whatever width and height are supplied: the scale rule has
priority. -/
theorem scale_rule_priority (ow oh s : Nat) (wopt hopt : Option Nat)
    (how : 0 < ow) (hoh : 0 < oh) (hs : 0 < s) :
    computeNewDims ow oh wopt hopt (some s) = (ow * s / 100, oh * s / 100) := by
  have : truthy (some s) = true := by
    simp [truthy, Nat.pos_iff_ne_zero.mp hs]
  simp [computeNewDims, this]

theorem scale_rule_priority_witness :
    0 < 1000 ∧ 0 < 500 ∧ 0 < 50 ∧
      computeNewDims 1000 500 (some 123) (some 77) (some 50) = (500, 250) :=
  ⟨by decide, by decide, by decide,
    scale_rule_priority 1000 500 50 (some 123) (some 77)
      (by decide) (by decide) (by decide)⟩

/-- C2: width only (height and scale_percent absent): width is used as
given and the height is derived from the aspect ratio, rounded down. -/
theorem width_only_aspect (ow oh w : Nat)
    (how : 0 < ow) (hoh : 0 < oh) (hw : 0 < w) :
    computeNewDims ow oh (some w) none none = (w, oh * w / ow) := by
  have hw0 : w ≠ 0 := Nat.pos_iff_ne_zero.mp hw
  simp [computeNewDims, truthy, hw0]

theorem width_only_aspect_witness :
    0 < 1000 ∧ 0 < 500 ∧ 0 < 400 ∧
      computeNewDims 1000 500 (some 400) none none = (400, 200) :=
  ⟨by decide, by decide, by decide,
    width_only_aspect 1000 500 400 (by decide) (by decide) (by decide)⟩

/-- C3: both width and height given (scale_percent absent): used verbatim,
whatever the original dimensions. -/
theorem both_dims_verbatim (ow oh w h : Nat) (hw : 0 < w) (hh : 0 < h) :
    computeNewDims ow oh (some w) (some h) none = (w, h) := by
  have hw0 : w ≠ 0 := Nat.pos_iff_ne_zero.mp hw
  have hh0 : h ≠ 0 := Nat.pos_iff_ne_zero.mp hh
  simp [computeNewDims, truthy, hw0, hh0]

theorem both_dims_verbatim_witness :
    0 < 300 ∧ 0 < 300 ∧
      computeNewDims 1000 500 (some 300) (some 300) none = (300, 300) :=
  ⟨by decide, by decide,
    both_dims_verbatim 1000 500 300 300 (by decide) (by decide)⟩

/-- C4: no sizing option given: the original dimensions are kept. -/
theorem no_options_identity (ow oh : Nat) :
    computeNewDims ow oh none none none = (ow, oh) := rfl

/-- C5: a zero-valued `scale_percent`, `width` or `height` is
indistinguishable from an absent one: replacing `some 0` by `none` in any
slot leaves the resolved dimensions unchanged, and all three zero resolves
to the original dimensions. -/
theorem zero_treated_as_absent (ow oh : Nat) (wopt hopt sopt : Option Nat) :
    computeNewDims ow oh wopt hopt (some 0) = computeNewDims ow oh wopt hopt none
    ∧ computeNewDims ow oh (some 0) hopt sopt = computeNewDims ow oh none hopt sopt
    ∧ computeNewDims ow oh wopt (some 0) sopt = computeNewDims ow oh wopt none sopt
    ∧ computeNewDims ow oh (some 0) (some 0) (some 0) = (ow, oh) := by
  refine ⟨?_, ?_, ?_, ?_⟩ <;> simp [computeNewDims, truthy]

/-- C6: the code at the failing input.  With an explicit `png` format
requested for a `.jpg` input, the JPEG branch is still taken (the
resulting `photo.png` is written by the JPEG encoder), and an RGBA source
would be composited onto white; the claim says the JPEG encoder is not
used when a non-JPEG format is explicitly requested. -/
theorem jpeg_branch_despite_png_request :
    saveMode (some "png") "photo.jpg" = SaveMode.jpeg
    ∧ jpegConvertsToRGB "RGBA" = true := by
  exact ⟨by decide, by decide⟩

/-- C7: with everything else fixed, the format parameter never changes
the resolved pixel dimensions, and it changes the output filename exactly
by substituting the extension (kept unchanged when absent). -/
theorem format_changes_only_extension (w h s : Option Nat) (q : Nat)
    (fmt1 fmt2 : Option String) (out filename : String) (info : ImgInfo) :
    (processOk ⟨w, h, s, fmt1, q⟩ out filename info).2.1
      = (processOk ⟨w, h, s, fmt2, q⟩ out filename info).2.1
    ∧ (∀ f, outputFilename (some f) filename = (splitext filename).1 ++ "." ++ f)
    ∧ outputFilename none filename = filename := by
  refine ⟨rfl, fun f => rfl, rfl⟩

/-- C8: when the input folder does not exist, `main` prints only the
error line; no directory is created and no file is written. -/
theorem missing_input_folder_halts (output_exists : Bool) (args : ResizeArgs)
    (input_folder output_folder : String)
    (files : List (String × Except String ImgInfo)) :
    mainEffects false output_exists args input_folder output_folder files
      = [Effect.printLine ("Error: Input folder '" ++ input_folder
          ++ "' does not exist")]
    ∧ (mainEffects false output_exists args input_folder output_folder
        files).countP isFileOp = 0 := by
  refine ⟨rfl, ?_⟩
  simp [mainEffects, isFileOp]

/-- C9: a supported file whose processing raises is logged with its
filename and message, counts toward `failed` together with every other
failing file, and does not stop the rest of the batch: `processed` still
counts every supported success in the listing. -/
theorem per_file_error_isolated (args : ResizeArgs) (out filename e : String)
    (files : List (String × Except String ImgInfo))
    (hmem : (filename, Except.error e) ∈ files)
    (hsup : isSupportedFile filename = true) :
    failEffect filename e ∈ (resizeLoop args out files 0 0).1
    ∧ (resizeLoop args out files 0 0).2.2 = files.countP isFailFile
    ∧ 0 < files.countP isFailFile
    ∧ (resizeLoop args out files 0 0).2.1 = files.countP isOkFile := by
  rw [resizeLoop_spec args out files 0 0]
  refine ⟨?_, by simp, ?_, by simp⟩
  · simp only [List.mem_flatten]
    exact ⟨fileEffects args out (filename, Except.error e),
      List.mem_map_of_mem _ hmem, by simp [fileEffects, hsup]⟩
  · rw [List.countP_pos_iff]
    exact ⟨(filename, Except.error e), hmem, by simp [isFailFile, hsup]⟩

theorem per_file_error_isolated_witness :
    ("b.png", (Except.error "boom" : Except String ImgInfo))
        ∈ [("a.jpg", Except.ok (ImgInfo.mk 10 5 "RGB")),
           ("b.png", (Except.error "boom" : Except String ImgInfo))]
    ∧ isSupportedFile "b.png" = true
    ∧ (failEffect "b.png" "boom"
         ∈ (resizeLoop (ResizeArgs.mk none none none none 95) "out"
             [("a.jpg", Except.ok (ImgInfo.mk 10 5 "RGB")),
              ("b.png", (Except.error "boom" : Except String ImgInfo))] 0 0).1
       ∧ (resizeLoop (ResizeArgs.mk none none none none 95) "out"
             [("a.jpg", Except.ok (ImgInfo.mk 10 5 "RGB")),
              ("b.png", (Except.error "boom" : Except String ImgInfo))] 0 0).2.2
           = List.countP isFailFile
              [("a.jpg", Except.ok (ImgInfo.mk 10 5 "RGB")),
               ("b.png", (Except.error "boom" : Except String ImgInfo))]
       ∧ 0 < List.countP isFailFile
              [("a.jpg", Except.ok (ImgInfo.mk 10 5 "RGB")),
               ("b.png", (Except.error "boom" : Except String ImgInfo))]
       ∧ (resizeLoop (ResizeArgs.mk none none none none 95) "out"
             [("a.jpg", Except.ok (ImgInfo.mk 10 5 "RGB")),
              ("b.png", (Except.error "boom" : Except String ImgInfo))] 0 0).2.1
           = List.countP isOkFile
              [("a.jpg", Except.ok (ImgInfo.mk 10 5 "RGB")),
               ("b.png", (Except.error "boom" : Except String ImgInfo))]) :=
  ⟨by simp, by decide,
    per_file_error_isolated (ResizeArgs.mk none none none none 95) "out"
      "b.png" "boom"
      [("a.jpg", Except.ok (ImgInfo.mk 10 5 "RGB")),
       ("b.png", (Except.error "boom" : Except String ImgInfo))]
      (by simp) (by decide)⟩

/-- C10: each directory entry is counted in exactly one way: the two
counters partition the supported entries (`processed + failed` equals the
number of supported-extension entries), and dropping the unsupported
entries changes nothing — they produce no effect and touch no counter. -/
theorem counters_partition_supported (args : ResizeArgs) (out : String)
    (files : List (String × Except String ImgInfo)) :
    (resizeLoop args out files 0 0).2.1 + (resizeLoop args out files 0 0).2.2
      = (files.filter (fun x => isSupportedFile x.1)).length
    ∧ resizeLoop args out files 0 0
      = resizeLoop args out (files.filter (fun x => isSupportedFile x.1)) 0 0 := by
  constructor
  · rw [resizeLoop_spec args out files 0 0,
      ← List.countP_eq_length_filter (fun x => isSupportedFile x.1) files]
    simp only [Nat.zero_add]
    induction files with
    | nil => simp
    | cons x rest ih =>
      obtain ⟨filename, r⟩ := x
      cases r <;> by_cases hs : isSupportedFile filename <;>
        simp [List.countP_cons, isOkFile, isFailFile, hs] <;> omega
  · rw [resizeLoop_spec args out files 0 0,
      resizeLoop_spec args out (files.filter (fun x => isSupportedFile x.1)) 0 0]
    simp only [Nat.zero_add]
    refine congrArg₂ Prod.mk ?_ (congrArg₂ Prod.mk ?_ ?_)
    · induction files with
      | nil => rfl
      | cons x rest ih =>
        obtain ⟨filename, r⟩ := x
        cases r <;> by_cases hs : isSupportedFile filename <;>
          simp [fileEffects, hs, ih]
    · induction files with
      | nil => rfl
      | cons x rest ih =>
        obtain ⟨filename, r⟩ := x
        cases r <;> by_cases hs : isSupportedFile filename <;>
          simp [List.countP_cons, isOkFile, hs, ih]
    · induction files with
      | nil => rfl
      | cons x rest ih =>
        obtain ⟨filename, r⟩ := x
        cases r <;> by_cases hs : isSupportedFile filename <;>
          simp [List.countP_cons, isFailFile, hs, ih]
